import Mathlib

/-!
Verification of the virtio-fs transport driver
(`kernel/comps/virtio/src/device/filesystem/device.rs` and
`kernel/comps/virtio/src/device/filesystem/request.rs`).

The embedding models, for every FUSE operation of `AnyFuseDevice`
implemented by `FilesystemDevice`, the request the operation assembles:
the `FuseInHeader` it builds, the total number of bytes written into the
staging DMA buffer, the `len_in` split offset, the two `DmaStreamSlice`
descriptors, which staging buffer the bytes go to, which virtqueue the
chain is added to, and whether the operation performs the
`should_notify`/`notify` step.  It also models the directory-entry
decode loop `FuseReaddirOut::read_dirent`, the padding helpers and
`negotiate_features`.

Byte sizes of the wire structs: the struct definitions live in the
repository's `fuse.rs`, which is not part of the sources here; the spec
fixes `FuseInHeader` at 40 bytes (§3) and requires a byte-exact
reproduction of the standard FUSE wire ABI for every other struct (§6),
so each size constant below is the standard FUSE ABI size, matching the
field lists visible at the construction sites in `device.rs`.
-/

namespace VirtioFs

/-- Size of `FuseInHeader` in bytes. The spec (§3) fixes it: "fixed 40-byte
request header". Fields visible in `device.rs`: len, opcode, unique, nodeid,
uid, gid, pid, total_extlen, padding. -/
def szFuseInHeader : Nat := 40

/-- Modelled from the spec: `fuse.rs` is not under `src/`. `FuseOutHeader`
(§3: total out-message length, signed error code, echoed unique id) is
`len:u32, error:i32, unique:u64`, 16 bytes in the FUSE ABI the spec
mandates byte-exactly (§6). -/
def szFuseOutHeader : Nat := 16

/-- Modelled from the spec (missing `fuse.rs`): `FuseInitIn` with fields
major, minor, max_readahead, flags, flags2, unused[11] (all u32), 64 bytes. -/
def szFuseInitIn : Nat := 64

/-- Modelled from the spec (missing `fuse.rs`): `FuseOpenIn` = flags,
open_flags (two u32), 8 bytes. -/
def szFuseOpenIn : Nat := 8

/-- Modelled from the spec (missing `fuse.rs`): `FuseOpenOut` = fh (u64),
open_flags (u32), backing_id (u32), 16 bytes. -/
def szFuseOpenOut : Nat := 16

/-- Modelled from the spec (missing `fuse.rs`): `FuseReadIn` = fh, offset
(u64), size, read_flags (u32), lock_owner (u64), flags, padding (u32),
40 bytes. -/
def szFuseReadIn : Nat := 40

/-- Modelled from the spec (missing `fuse.rs`): `FuseWriteIn` = fh, offset
(u64), size, write_flags (u32), lock_owner (u64), flags, padding (u32),
40 bytes. -/
def szFuseWriteIn : Nat := 40

/-- Modelled from the spec (missing `fuse.rs`): `FuseWriteOut` = size,
padding (two u32), 8 bytes. -/
def szFuseWriteOut : Nat := 8

/-- Modelled from the spec (missing `fuse.rs`): `FuseFlushIn` = fh,
lock_owner (u64), padding, unused (u32), 24 bytes. -/
def szFuseFlushIn : Nat := 24

/-- Modelled from the spec (missing `fuse.rs`): `FuseReleaseIn` = fh (u64),
flags, release_flags (u32), lock_owner (u64), 24 bytes. -/
def szFuseReleaseIn : Nat := 24

/-- Modelled from the spec (missing `fuse.rs`): `FuseGetattrIn` =
getattr_flags, dummy (u32), fh (u64), 16 bytes. -/
def szFuseGetattrIn : Nat := 16

/-- Modelled from the spec (missing `fuse.rs`): `FuseAttrOut` = attr_valid
(u64), attr_valid_nsec, dummy (u32), attr (88-byte `FuseAttr`), 104 bytes. -/
def szFuseAttrOut : Nat := 104

/-- Modelled from the spec (missing `fuse.rs`): `FuseSetattrIn` = valid,
padding (u32), fh, size, lock_owner, atime, mtime, ctime (u64), atimensec,
mtimensec, ctimensec, mode, unused4, uid, gid, unused5 (u32), 88 bytes. -/
def szFuseSetattrIn : Nat := 88

/-- Modelled from the spec (missing `fuse.rs`): `FuseEntryOut` = nodeid,
generation, entry_valid, attr_valid (u64), entry_valid_nsec,
attr_valid_nsec (u32), attr (88-byte `FuseAttr`), 128 bytes. -/
def szFuseEntryOut : Nat := 128

/-- Modelled from the spec (missing `fuse.rs`): `FuseAccessIn` = mask,
padding (u32), 8 bytes. -/
def szFuseAccessIn : Nat := 8

/-- Modelled from the spec (missing `fuse.rs`): `FuseStatfsOut` = an
80-byte `FuseKstatfs` (blocks, bfree, bavail, files, ffree as u64; bsize,
namelen, frsize, padding as u32; spare[6] u32). -/
def szFuseStatfsOut : Nat := 80

/-- Modelled from the spec (missing `fuse.rs`): `FuseInterruptIn` = unique
(u64), 8 bytes. -/
def szFuseInterruptIn : Nat := 8

/-- Modelled from the spec (missing `fuse.rs`): `FuseMkdirIn` = mode, umask
(u32), 8 bytes. -/
def szFuseMkdirIn : Nat := 8

/-- Modelled from the spec (missing `fuse.rs`): `FuseCreateIn` = flags,
mode, umask, open_flags (u32), 16 bytes. -/
def szFuseCreateIn : Nat := 16

/-- Modelled from the spec (missing `fuse.rs`): `FuseRenameIn` = newdir
(u64), 8 bytes. -/
def szFuseRenameIn : Nat := 8

/-- Modelled from the spec (missing `fuse.rs`): `FuseRename2In` = newdir
(u64), flags, padding (u32), 16 bytes. -/
def szFuseRename2In : Nat := 16

/-- Modelled from the spec (missing `fuse.rs`): `FuseForgetIn` = nlookup
(u64), 8 bytes. -/
def szFuseForgetIn : Nat := 8

/-- Modelled from the spec (missing `fuse.rs`): `FuseBatchForgetIn` =
count, dummy (u32), 8 bytes in the FUSE ABI. Note `batch_forget` in
`device.rs` uses this size in its header `len` but never writes such a
struct into the buffer. -/
def szFuseBatchForgetIn : Nat := 8

/-- Modelled from the spec (missing `fuse.rs`): `FuseForgetOne` = nodeid,
nlookup (u64), 16 bytes (§3: "batch-forget repeating (nodeid, nlookup)
pairs"). -/
def szFuseForgetOne : Nat := 16

/-- Modelled from the spec (missing `fuse.rs`): `FuseLinkIn` = oldnodeid
(u64), 8 bytes. -/
def szFuseLinkIn : Nat := 8

/-- Modelled from the spec (missing `fuse.rs`): in the FUSE ABI an unlink
request carries only the name after the header, so the repository's
`FuseUnlinkIn` marker struct is modelled as empty, 0 bytes. `unlink` in
`device.rs` adds this size to `len` and `len_in` but writes no such
struct. -/
def szFuseUnlinkIn : Nat := 0

/-- Size of the fixed `FuseDirent` record: ino, off (u64), namelen,
type (u32), 24 bytes. Used by `read_dirent` in `request.rs`. -/
def szFuseDirent : Nat := 24

/-- Modelled from the spec (missing `fuse.rs`): standard FUSE opcode
numbers (the `FuseOpcode` enum). Their exact values decide no claim; only
which operation builds which opcode matters. -/
def opFuseLookup : Nat := 1

def opFuseForget : Nat := 2

def opFuseGetattr : Nat := 3

def opFuseSetattr : Nat := 4

def opFuseMkdir : Nat := 9

def opFuseUnlink : Nat := 10

def opFuseRename : Nat := 12

def opFuseLink : Nat := 13

def opFuseOpen : Nat := 14

def opFuseRead : Nat := 15

def opFuseWrite : Nat := 16

def opFuseStatfs : Nat := 17

def opFuseRelease : Nat := 18

def opFuseFlush : Nat := 25

def opFuseInit : Nat := 26

def opFuseOpendir : Nat := 27

def opFuseReaddir : Nat := 28

def opFuseReleasedir : Nat := 29

def opFuseAccess : Nat := 34

def opFuseCreate : Nat := 35

def opFuseInterrupt : Nat := 36

def opFuseDestroy : Nat := 38

def opFuseBatchForget : Nat := 42

def opFuseRename2 : Nat := 45

/-- The write flag `FUSE_WRITE_LOCKOWNER` (bit 1 of write_flags in the
FUSE ABI), set by `write` in `device.rs`. -/
def FUSE_WRITE_LOCKOWNER : Nat := 2

/-- The `FuseInHeader` record as each operation in `device.rs` builds it. -/
structure FuseInHeader where
  len : Nat
  opcode : Nat
  unique : Nat
  nodeid : Nat
  uid : Nat
  gid : Nat
  pid : Nat
  totalExtlen : Nat
  padding : Nat
  deriving DecidableEq, Repr

/-- The `FuseOutHeader` record (len, error, unique) read back by the
completion dispatcher and by `read_dirent`. -/
structure FuseOutHeader where
  len : Nat
  error : Int
  unique : Nat
  deriving DecidableEq, Repr

/-- The `FuseWriteIn` record as `write` in `device.rs` builds it. -/
structure FuseWriteIn where
  fh : Nat
  offset : Nat
  size : Nat
  writeFlags : Nat
  lockOwner : Nat
  flags : Nat
  padding : Nat
  deriving DecidableEq, Repr

/-- Which virtqueue (and which matching staging buffer): the priority
(hiprio) queue or general request queue `i`. -/
inductive QueueSel where
  | hiprio : QueueSel
  | request : Nat → QueueSel
  deriving DecidableEq, Repr

/-- Modelled from the spec: `DmaStreamSlice` (the ostd DMA-buffer
capability) is not under `src/`. Per spec §4.2 step 6 the two descriptor
slices are the byte sub-ranges `[0, len_in)` and `[len_in, total_len)` of
a staging buffer, so a slice is modelled as the half-open range it
covers, tagged with the buffer it slices. -/
structure DmaSlice where
  buf : QueueSel
  lo : Nat
  hi : Nat
  deriving DecidableEq, Repr

/-- Modelled from the spec: constructing a `DmaStreamSlice` of a staging
buffer from the split point to the end of the written extent (spec §4.2
step 6). -/
def dmaStreamSlice (b : QueueSel) (lo hi : Nat) : DmaSlice := ⟨b, lo, hi⟩

/-- Everything one operation of `AnyFuseDevice for FilesystemDevice`
produces on its submission path: the request header, the byte-count
bookkeeping, the DMA slices, the sync range, the staging buffer written
through `writer()`, the queue given to `add_dma_buf`, and whether the
`should_notify`/`notify` step is present in the function body. -/
structure AssembledRequest where
  headerin : FuseInHeader
  lenIn : Nat
  totalLen : Nat
  stagingBuffer : QueueSel
  syncLo : Nat
  syncHi : Nat
  sliceIn : DmaSlice
  sliceOut : DmaSlice
  queue : QueueSel
  checksNotify : Bool
  deriving DecidableEq, Repr

/-- The padding length exactly as the code computes it:
`(8 - (len & 0x7)) & 0x7` (`device.rs` line 1055, `request.rs` line 78). -/
def padLen (L : Nat) : Nat := (8 - (L &&& 0x7)) &&& 0x7

/-- Modelled from the spec: `fuse_pad_str` is imported by `device.rs` from
`request.rs` but its body is not under `src/`. Spec §3: a name is "padded
with a trailing terminator and zero-padded to an 8-byte boundary"; §4.1
gives the pad rule `pad(s) = (8 - (len(s) mod 8)) mod 8` zero bytes. With
the terminator flag set (every call site passes `true`) the name gets a
trailing 0 byte and is then zero-padded to the next multiple of 8. -/
def fusePadStr (name : List Nat) (terminated : Bool) : List Nat :=
  let base := if terminated then name ++ [0] else name
  base ++ List.replicate ((8 - base.length % 8) % 8) 0

/-- Embeds `FilesystemDevice::init` (device.rs lines 40-92): header len is
`size_of(FuseInitIn) + size_of(FuseInHeader)`; the buffer is header-in,
init-in, a 16-byte out-header placeholder and a literal 256-byte init-out
placeholder; submitted on general request queue 0. -/
def initReq : AssembledRequest :=
  let headerin : FuseInHeader :=
    { len := szFuseInitIn + szFuseInHeader, opcode := opFuseInit, unique := 0, nodeid := 0,
      uid := 0, gid := 0, pid := 0, totalExtlen := 0, padding := 0 }
  let len := szFuseInHeader + szFuseInitIn + szFuseOutHeader + 256
  let lenIn := szFuseInitIn + szFuseInHeader
  { headerin := headerin, lenIn := lenIn, totalLen := len,
    stagingBuffer := QueueSel.request 0, syncLo := 0, syncHi := len,
    sliceIn := dmaStreamSlice (QueueSel.request 0) 0 lenIn,
    sliceOut := dmaStreamSlice (QueueSel.request 0) lenIn len,
    queue := QueueSel.request 0, checksNotify := true }

/-- Embeds `FilesystemDevice::opendir` (device.rs lines 94-142). -/
def opendirReq (nodeid flags : Nat) : AssembledRequest :=
  let headerin : FuseInHeader :=
    { len := szFuseOpenIn + szFuseInHeader, opcode := opFuseOpendir, unique := 0,
      nodeid := nodeid, uid := 0, gid := 0, pid := 0, totalExtlen := 0, padding := 0 }
  let len := szFuseInHeader + szFuseOpenIn + szFuseOutHeader + szFuseOpenOut
  let lenIn := szFuseOpenIn + szFuseInHeader
  { headerin := headerin, lenIn := lenIn, totalLen := len,
    stagingBuffer := QueueSel.request 0, syncLo := 0, syncHi := len,
    sliceIn := dmaStreamSlice (QueueSel.request 0) 0 lenIn,
    sliceOut := dmaStreamSlice (QueueSel.request 0) lenIn len,
    queue := QueueSel.request 0, checksNotify := true }

/-- Embeds `FilesystemDevice::readdir` (device.rs lines 144-198): the
read-out placeholder is the literal 1024 bytes. -/
def readdirReq (nodeid fh offset size : Nat) : AssembledRequest :=
  let headerin : FuseInHeader :=
    { len := szFuseReadIn + szFuseInHeader, opcode := opFuseReaddir, unique := 0,
      nodeid := nodeid, uid := 0, gid := 0, pid := 0, totalExtlen := 0, padding := 0 }
  let len := szFuseInHeader + szFuseReadIn + szFuseOutHeader + 1024
  let lenIn := szFuseReadIn + szFuseInHeader
  { headerin := headerin, lenIn := lenIn, totalLen := len,
    stagingBuffer := QueueSel.request 0, syncLo := 0, syncHi := len,
    sliceIn := dmaStreamSlice (QueueSel.request 0) 0 lenIn,
    sliceOut := dmaStreamSlice (QueueSel.request 0) lenIn len,
    queue := QueueSel.request 0, checksNotify := true }

/-- Embeds `FilesystemDevice::read` (device.rs lines 200-254): same layout
as `readdir` with the read opcode and a 1024-byte out placeholder. -/
def readReq (nodeid fh offset size : Nat) : AssembledRequest :=
  let headerin : FuseInHeader :=
    { len := szFuseReadIn + szFuseInHeader, opcode := opFuseRead, unique := 0,
      nodeid := nodeid, uid := 0, gid := 0, pid := 0, totalExtlen := 0, padding := 0 }
  let len := szFuseInHeader + szFuseReadIn + szFuseOutHeader + 1024
  let lenIn := szFuseReadIn + szFuseInHeader
  { headerin := headerin, lenIn := lenIn, totalLen := len,
    stagingBuffer := QueueSel.request 0, syncLo := 0, syncHi := len,
    sliceIn := dmaStreamSlice (QueueSel.request 0) 0 lenIn,
    sliceOut := dmaStreamSlice (QueueSel.request 0) lenIn len,
    queue := QueueSel.request 0, checksNotify := true }

/-- Embeds `FilesystemDevice::open` (device.rs lines 256-304). -/
def openReq (nodeid flags : Nat) : AssembledRequest :=
  let headerin : FuseInHeader :=
    { len := szFuseOpenIn + szFuseInHeader, opcode := opFuseOpen, unique := 0,
      nodeid := nodeid, uid := 0, gid := 0, pid := 0, totalExtlen := 0, padding := 0 }
  let len := szFuseInHeader + szFuseOpenIn + szFuseOutHeader + szFuseOpenOut
  let lenIn := szFuseOpenIn + szFuseInHeader
  { headerin := headerin, lenIn := lenIn, totalLen := len,
    stagingBuffer := QueueSel.request 0, syncLo := 0, syncHi := len,
    sliceIn := dmaStreamSlice (QueueSel.request 0) 0 lenIn,
    sliceOut := dmaStreamSlice (QueueSel.request 0) lenIn len,
    queue := QueueSel.request 0, checksNotify := true }

/-- Embeds `FilesystemDevice::flush` (device.rs lines 306-356): no
flush-out placeholder (commented out in the source). -/
def flushReq (nodeid fh lockOwner : Nat) : AssembledRequest :=
  let headerin : FuseInHeader :=
    { len := szFuseFlushIn + szFuseInHeader, opcode := opFuseFlush, unique := 0,
      nodeid := nodeid, uid := 0, gid := 0, pid := 0, totalExtlen := 0, padding := 0 }
  let len := szFuseInHeader + szFuseFlushIn + szFuseOutHeader
  let lenIn := szFuseFlushIn + szFuseInHeader
  { headerin := headerin, lenIn := lenIn, totalLen := len,
    stagingBuffer := QueueSel.request 0, syncLo := 0, syncHi := len,
    sliceIn := dmaStreamSlice (QueueSel.request 0) 0 lenIn,
    sliceOut := dmaStreamSlice (QueueSel.request 0) lenIn len,
    queue := QueueSel.request 0, checksNotify := true }

/-- Embeds `FilesystemDevice::releasedir` (device.rs lines 358-408): no
release-out placeholder (commented out in the source). -/
def releasedirReq (nodeid fh flags : Nat) : AssembledRequest :=
  let headerin : FuseInHeader :=
    { len := szFuseReleaseIn + szFuseInHeader, opcode := opFuseReleasedir, unique := 0,
      nodeid := nodeid, uid := 0, gid := 0, pid := 0, totalExtlen := 0, padding := 0 }
  let len := szFuseInHeader + szFuseReleaseIn + szFuseOutHeader
  let lenIn := szFuseReleaseIn + szFuseInHeader
  { headerin := headerin, lenIn := lenIn, totalLen := len,
    stagingBuffer := QueueSel.request 0, syncLo := 0, syncHi := len,
    sliceIn := dmaStreamSlice (QueueSel.request 0) 0 lenIn,
    sliceOut := dmaStreamSlice (QueueSel.request 0) lenIn len,
    queue := QueueSel.request 0, checksNotify := true }

/-- Embeds `FilesystemDevice::getattr` (device.rs lines 410-459). -/
def getattrReq (nodeid fh flags dummy : Nat) : AssembledRequest :=
  let headerin : FuseInHeader :=
    { len := szFuseGetattrIn + szFuseInHeader, opcode := opFuseGetattr, unique := 0,
      nodeid := nodeid, uid := 0, gid := 0, pid := 0, totalExtlen := 0, padding := 0 }
  let len := szFuseInHeader + szFuseGetattrIn + szFuseOutHeader + szFuseAttrOut
  let lenIn := szFuseGetattrIn + szFuseInHeader
  { headerin := headerin, lenIn := lenIn, totalLen := len,
    stagingBuffer := QueueSel.request 0, syncLo := 0, syncHi := len,
    sliceIn := dmaStreamSlice (QueueSel.request 0) 0 lenIn,
    sliceOut := dmaStreamSlice (QueueSel.request 0) lenIn len,
    queue := QueueSel.request 0, checksNotify := true }

/-- Embeds `FilesystemDevice::setattr` (device.rs lines 461-539); the four
segments are header-in, setattr-in, out-header placeholder and a
`FuseAttrOut`-sized placeholder (the source builds the same four segments;
its line 521 lacks the `.concat()` of the other operations but the length
arithmetic is identical). -/
def setattrReq (nodeid valid fh size lockOwner atime mtime ctime atimensec
    mtimensec ctimensec mode uid gid : Nat) : AssembledRequest :=
  let headerin : FuseInHeader :=
    { len := szFuseSetattrIn + szFuseInHeader, opcode := opFuseSetattr, unique := 0,
      nodeid := nodeid, uid := 0, gid := 0, pid := 0, totalExtlen := 0, padding := 0 }
  let len := szFuseInHeader + szFuseSetattrIn + szFuseOutHeader + szFuseAttrOut
  let lenIn := szFuseSetattrIn + szFuseInHeader
  { headerin := headerin, lenIn := lenIn, totalLen := len,
    stagingBuffer := QueueSel.request 0, syncLo := 0, syncHi := len,
    sliceIn := dmaStreamSlice (QueueSel.request 0) 0 lenIn,
    sliceOut := dmaStreamSlice (QueueSel.request 0) lenIn len,
    queue := QueueSel.request 0, checksNotify := true }

/-- Embeds `FilesystemDevice::lookup` (device.rs lines 541-595): the name
is padded by `fuse_pad_str` with terminator; header len is
`size_of(FuseInHeader) + prepared_name.len()`. -/
def lookupReq (nodeid : Nat) (name : List Nat) : AssembledRequest :=
  let preparedName := fusePadStr name true
  let headerin : FuseInHeader :=
    { len := szFuseInHeader + preparedName.length, opcode := opFuseLookup, unique := 0,
      nodeid := nodeid, uid := 0, gid := 0, pid := 0, totalExtlen := 0, padding := 0 }
  let len := szFuseInHeader + preparedName.length + szFuseOutHeader + szFuseEntryOut
  let lenIn := preparedName.length + szFuseInHeader
  { headerin := headerin, lenIn := lenIn, totalLen := len,
    stagingBuffer := QueueSel.request 0, syncLo := 0, syncHi := len,
    sliceIn := dmaStreamSlice (QueueSel.request 0) 0 lenIn,
    sliceOut := dmaStreamSlice (QueueSel.request 0) lenIn len,
    queue := QueueSel.request 0, checksNotify := true }

/-- Embeds `FilesystemDevice::release` (device.rs lines 597-647): no
release-out placeholder (commented out in the source). -/
def releaseReq (nodeid fh flags lockOwner : Nat) (flush : Bool) : AssembledRequest :=
  let headerin : FuseInHeader :=
    { len := szFuseReleaseIn + szFuseInHeader, opcode := opFuseRelease, unique := 0,
      nodeid := nodeid, uid := 0, gid := 0, pid := 0, totalExtlen := 0, padding := 0 }
  let len := szFuseInHeader + szFuseReleaseIn + szFuseOutHeader
  let lenIn := szFuseReleaseIn + szFuseInHeader
  { headerin := headerin, lenIn := lenIn, totalLen := len,
    stagingBuffer := QueueSel.request 0, syncLo := 0, syncHi := len,
    sliceIn := dmaStreamSlice (QueueSel.request 0) 0 lenIn,
    sliceOut := dmaStreamSlice (QueueSel.request 0) lenIn len,
    queue := QueueSel.request 0, checksNotify := true }

/-- Embeds `FilesystemDevice::access` (device.rs lines 649-697): the out
placeholder is `FuseAttrOut`-sized in the source. -/
def accessReq (nodeid mask : Nat) : AssembledRequest :=
  let headerin : FuseInHeader :=
    { len := szFuseAccessIn + szFuseInHeader, opcode := opFuseAccess, unique := 0,
      nodeid := nodeid, uid := 0, gid := 0, pid := 0, totalExtlen := 0, padding := 0 }
  let len := szFuseInHeader + szFuseAccessIn + szFuseOutHeader + szFuseAttrOut
  let lenIn := szFuseAccessIn + szFuseInHeader
  { headerin := headerin, lenIn := lenIn, totalLen := len,
    stagingBuffer := QueueSel.request 0, syncLo := 0, syncHi := len,
    sliceIn := dmaStreamSlice (QueueSel.request 0) 0 lenIn,
    sliceOut := dmaStreamSlice (QueueSel.request 0) lenIn len,
    queue := QueueSel.request 0, checksNotify := true }

/-- Embeds `FilesystemDevice::statfs` (device.rs lines 699-735): no
op-specific input struct; header len is `size_of(FuseInHeader)` only. -/
def statfsReq (nodeid : Nat) : AssembledRequest :=
  let headerin : FuseInHeader :=
    { len := szFuseInHeader, opcode := opFuseStatfs, unique := 0,
      nodeid := nodeid, uid := 0, gid := 0, pid := 0, totalExtlen := 0, padding := 0 }
  let len := szFuseInHeader + szFuseOutHeader + szFuseStatfsOut
  let lenIn := szFuseInHeader
  { headerin := headerin, lenIn := lenIn, totalLen := len,
    stagingBuffer := QueueSel.request 0, syncLo := 0, syncHi := len,
    sliceIn := dmaStreamSlice (QueueSel.request 0) 0 lenIn,
    sliceOut := dmaStreamSlice (QueueSel.request 0) lenIn len,
    queue := QueueSel.request 0, checksNotify := true }

/-- Embeds `FilesystemDevice::interrupt` (device.rs lines 737-775): locks
the hiprio queue and adds the chain there, but stages the bytes through
`self.request_buffers[0].writer()` and slices `request_buffers[0]`. -/
def interruptReq (nodeid unique : Nat) : AssembledRequest :=
  let headerin : FuseInHeader :=
    { len := szFuseInterruptIn + szFuseInHeader, opcode := opFuseInterrupt, unique := unique,
      nodeid := nodeid, uid := 0, gid := 0, pid := 0, totalExtlen := 0, padding := 0 }
  let len := szFuseInHeader + szFuseInterruptIn + szFuseOutHeader
  let lenIn := szFuseInterruptIn + szFuseInHeader
  { headerin := headerin, lenIn := lenIn, totalLen := len,
    stagingBuffer := QueueSel.request 0, syncLo := 0, syncHi := len,
    sliceIn := dmaStreamSlice (QueueSel.request 0) 0 lenIn,
    sliceOut := dmaStreamSlice (QueueSel.request 0) lenIn len,
    queue := QueueSel.hiprio, checksNotify := true }

/-- Embeds `FilesystemDevice::mkdir` (device.rs lines 777-832). -/
def mkdirReq (nodeid mode umask : Nat) (name : List Nat) : AssembledRequest :=
  let preparedName := fusePadStr name true
  let headerin : FuseInHeader :=
    { len := szFuseMkdirIn + preparedName.length + szFuseInHeader, opcode := opFuseMkdir,
      unique := 0, nodeid := nodeid, uid := 0, gid := 0, pid := 0, totalExtlen := 0,
      padding := 0 }
  let len := szFuseInHeader + szFuseMkdirIn + preparedName.length + szFuseOutHeader +
    szFuseEntryOut
  let lenIn := preparedName.length + szFuseMkdirIn + szFuseInHeader
  { headerin := headerin, lenIn := lenIn, totalLen := len,
    stagingBuffer := QueueSel.request 0, syncLo := 0, syncHi := len,
    sliceIn := dmaStreamSlice (QueueSel.request 0) 0 lenIn,
    sliceOut := dmaStreamSlice (QueueSel.request 0) lenIn len,
    queue := QueueSel.request 0, checksNotify := true }

/-- Embeds `FilesystemDevice::create` (device.rs lines 834-891). -/
def createReq (nodeid : Nat) (name : List Nat) (mode umask flags : Nat) : AssembledRequest :=
  let preparedName := fusePadStr name true
  let headerin : FuseInHeader :=
    { len := szFuseCreateIn + preparedName.length + szFuseInHeader, opcode := opFuseCreate,
      unique := 0, nodeid := nodeid, uid := 0, gid := 0, pid := 0, totalExtlen := 0,
      padding := 0 }
  let len := szFuseInHeader + szFuseCreateIn + preparedName.length + szFuseOutHeader +
    szFuseEntryOut
  let lenIn := preparedName.length + szFuseCreateIn + szFuseInHeader
  { headerin := headerin, lenIn := lenIn, totalLen := len,
    stagingBuffer := QueueSel.request 0, syncLo := 0, syncHi := len,
    sliceIn := dmaStreamSlice (QueueSel.request 0) 0 lenIn,
    sliceOut := dmaStreamSlice (QueueSel.request 0) lenIn len,
    queue := QueueSel.request 0, checksNotify := true }

/-- Embeds `FilesystemDevice::destroy` (device.rs lines 893-928): header
only, plus the out-header placeholder. -/
def destroyReq (nodeid : Nat) : AssembledRequest :=
  let headerin : FuseInHeader :=
    { len := szFuseInHeader, opcode := opFuseDestroy, unique := 0,
      nodeid := nodeid, uid := 0, gid := 0, pid := 0, totalExtlen := 0, padding := 0 }
  let len := szFuseInHeader + szFuseOutHeader
  let lenIn := szFuseInHeader
  { headerin := headerin, lenIn := lenIn, totalLen := len,
    stagingBuffer := QueueSel.request 0, syncLo := 0, syncHi := len,
    sliceIn := dmaStreamSlice (QueueSel.request 0) 0 lenIn,
    sliceOut := dmaStreamSlice (QueueSel.request 0) lenIn len,
    queue := QueueSel.request 0, checksNotify := true }

/-- Embeds `FilesystemDevice::rename` (device.rs lines 930-989): two
padded names follow the rename-in struct. -/
def renameReq (nodeid : Nat) (name : List Nat) (newdir : Nat) (newname : List Nat) :
    AssembledRequest :=
  let preparedName := fusePadStr name true
  let preparedNewname := fusePadStr newname true
  let headerin : FuseInHeader :=
    { len := szFuseRenameIn + preparedName.length + preparedNewname.length + szFuseInHeader,
      opcode := opFuseRename, unique := 0, nodeid := nodeid, uid := 0, gid := 0, pid := 0,
      totalExtlen := 0, padding := 0 }
  let len := szFuseInHeader + szFuseRenameIn + preparedName.length + preparedNewname.length +
    szFuseOutHeader + szFuseEntryOut
  let lenIn := preparedName.length + preparedNewname.length + szFuseRenameIn + szFuseInHeader
  { headerin := headerin, lenIn := lenIn, totalLen := len,
    stagingBuffer := QueueSel.request 0, syncLo := 0, syncHi := len,
    sliceIn := dmaStreamSlice (QueueSel.request 0) 0 lenIn,
    sliceOut := dmaStreamSlice (QueueSel.request 0) lenIn len,
    queue := QueueSel.request 0, checksNotify := true }

/-- Embeds `FilesystemDevice::rename2` (device.rs lines 991-1050): same
layout as `rename` with `FuseRename2In`; the function returns right after
`add_dma_buf` and contains no `should_notify`/`notify` step. -/
def rename2Req (nodeid : Nat) (name : List Nat) (newdir : Nat) (newname : List Nat)
    (flags : Nat) : AssembledRequest :=
  let preparedName := fusePadStr name true
  let preparedNewname := fusePadStr newname true
  let headerin : FuseInHeader :=
    { len := szFuseRename2In + preparedName.length + preparedNewname.length + szFuseInHeader,
      opcode := opFuseRename2, unique := 0, nodeid := nodeid, uid := 0, gid := 0, pid := 0,
      totalExtlen := 0, padding := 0 }
  let len := szFuseInHeader + szFuseRename2In + preparedName.length + preparedNewname.length +
    szFuseOutHeader + szFuseEntryOut
  let lenIn := preparedName.length + preparedNewname.length + szFuseRename2In + szFuseInHeader
  { headerin := headerin, lenIn := lenIn, totalLen := len,
    stagingBuffer := QueueSel.request 0, syncLo := 0, syncHi := len,
    sliceIn := dmaStreamSlice (QueueSel.request 0) 0 lenIn,
    sliceOut := dmaStreamSlice (QueueSel.request 0) lenIn len,
    queue := QueueSel.request 0, checksNotify := false }

/-- An assembled write request together with the `FuseWriteIn` struct and
the payload bytes placed after it. -/
structure WriteRequest where
  req : AssembledRequest
  writein : FuseWriteIn
  payload : List Nat
  deriving DecidableEq, Repr

/-- Embeds `FilesystemDevice::write` (device.rs lines 1052-1112): the data
is zero-padded to the next multiple of 8 first (line 1055, shadowing
`data`), then both the header `len` and the `FuseWriteIn.size` field are
computed from the shadowed, padded `data`. -/
def writeReq (nodeid fh offset : Nat) (data : List Nat) : WriteRequest :=
  let paddedData := data ++ List.replicate (padLen data.length) 0
  let headerin : FuseInHeader :=
    { len := szFuseInHeader + szFuseWriteIn + paddedData.length, opcode := opFuseWrite,
      unique := 0, nodeid := nodeid, uid := 0, gid := 0, pid := 0, totalExtlen := 0,
      padding := 0 }
  let writein : FuseWriteIn :=
    { fh := fh, offset := offset, size := paddedData.length,
      writeFlags := FUSE_WRITE_LOCKOWNER, lockOwner := 0, flags := 0, padding := 0 }
  let len := szFuseInHeader + szFuseWriteIn + paddedData.length + szFuseOutHeader +
    szFuseWriteOut
  let lenIn := szFuseWriteIn + szFuseInHeader + paddedData.length
  { req :=
      { headerin := headerin, lenIn := lenIn, totalLen := len,
        stagingBuffer := QueueSel.request 0, syncLo := 0, syncHi := len,
        sliceIn := dmaStreamSlice (QueueSel.request 0) 0 lenIn,
        sliceOut := dmaStreamSlice (QueueSel.request 0) lenIn len,
        queue := QueueSel.request 0, checksNotify := true },
    writein := writein, payload := paddedData }

/-- Embeds `FilesystemDevice::forget` (device.rs lines 1114-1152): locks
the hiprio queue and adds the chain there, but stages the bytes through
`self.request_buffers[0].writer()` and slices `request_buffers[0]`. -/
def forgetReq (nodeid nlookup : Nat) : AssembledRequest :=
  let headerin : FuseInHeader :=
    { len := szFuseForgetIn + szFuseInHeader, opcode := opFuseForget, unique := 0,
      nodeid := nodeid, uid := 0, gid := 0, pid := 0, totalExtlen := 0, padding := 0 }
  let len := szFuseInHeader + szFuseForgetIn + szFuseOutHeader
  let lenIn := szFuseForgetIn + szFuseInHeader
  { headerin := headerin, lenIn := lenIn, totalLen := len,
    stagingBuffer := QueueSel.request 0, syncLo := 0, syncHi := len,
    sliceIn := dmaStreamSlice (QueueSel.request 0) 0 lenIn,
    sliceOut := dmaStreamSlice (QueueSel.request 0) lenIn len,
    queue := QueueSel.hiprio, checksNotify := true }

/-- Embeds `FilesystemDevice::batch_forget` (device.rs lines 1154-1198):
the header `len` is `size_of(FuseBatchForgetIn) + size_of(FuseInHeader)`,
while the bytes actually written after the header are one 16-byte
`FuseForgetOne` record per list element, and the split offset `len_in` is
`forget_list.len() * size_of(FuseForgetOne) + size_of(FuseInHeader)`;
the chain goes to the hiprio queue but the bytes are staged in
`request_buffers[0]`. -/
def batchForgetReq (forgetList : List (Nat × Nat)) : AssembledRequest :=
  let headerin : FuseInHeader :=
    { len := szFuseBatchForgetIn + szFuseInHeader, opcode := opFuseBatchForget, unique := 0,
      nodeid := 0, uid := 0, gid := 0, pid := 0, totalExtlen := 0, padding := 0 }
  let forgetinLen := forgetList.length * szFuseForgetOne
  let len := szFuseInHeader + forgetinLen + szFuseOutHeader
  let lenIn := forgetList.length * szFuseForgetOne + szFuseInHeader
  { headerin := headerin, lenIn := lenIn, totalLen := len,
    stagingBuffer := QueueSel.request 0, syncLo := 0, syncHi := len,
    sliceIn := dmaStreamSlice (QueueSel.request 0) 0 lenIn,
    sliceOut := dmaStreamSlice (QueueSel.request 0) lenIn len,
    queue := QueueSel.hiprio, checksNotify := true }

/-- Embeds `FilesystemDevice::link` (device.rs lines 1199-1253). -/
def linkReq (nodeid oldnodeid : Nat) (name : List Nat) : AssembledRequest :=
  let preparedName := fusePadStr name true
  let headerin : FuseInHeader :=
    { len := szFuseLinkIn + preparedName.length + szFuseInHeader, opcode := opFuseLink,
      unique := 0, nodeid := nodeid, uid := 0, gid := 0, pid := 0, totalExtlen := 0,
      padding := 0 }
  let len := szFuseInHeader + szFuseLinkIn + preparedName.length + szFuseOutHeader +
    szFuseEntryOut
  let lenIn := preparedName.length + szFuseLinkIn + szFuseInHeader
  { headerin := headerin, lenIn := lenIn, totalLen := len,
    stagingBuffer := QueueSel.request 0, syncLo := 0, syncHi := len,
    sliceIn := dmaStreamSlice (QueueSel.request 0) 0 lenIn,
    sliceOut := dmaStreamSlice (QueueSel.request 0) lenIn len,
    queue := QueueSel.request 0, checksNotify := true }

/-- Embeds `FilesystemDevice::unlink` (device.rs lines 1254-1302): the
concatenation holds only the header, the padded name, and the two out
placeholders; `size_of(FuseUnlinkIn)` (modelled 0) appears in the header
`len` and in `len_in`. -/
def unlinkReq (nodeid : Nat) (name : List Nat) : AssembledRequest :=
  let preparedName := fusePadStr name true
  let headerin : FuseInHeader :=
    { len := szFuseUnlinkIn + preparedName.length + szFuseInHeader, opcode := opFuseUnlink,
      unique := 0, nodeid := nodeid, uid := 0, gid := 0, pid := 0, totalExtlen := 0,
      padding := 0 }
  let len := szFuseInHeader + preparedName.length + szFuseOutHeader + szFuseEntryOut
  let lenIn := preparedName.length + szFuseUnlinkIn + szFuseInHeader
  { headerin := headerin, lenIn := lenIn, totalLen := len,
    stagingBuffer := QueueSel.request 0, syncLo := 0, syncHi := len,
    sliceIn := dmaStreamSlice (QueueSel.request 0) 0 lenIn,
    sliceOut := dmaStreamSlice (QueueSel.request 0) lenIn len,
    queue := QueueSel.request 0, checksNotify := true }

/-- The fixed directory-entry record `FuseDirent` (ino, off, namelen,
type) as read by `read_dirent` in `request.rs`. -/
structure FuseDirent where
  ino : Nat
  off : Nat
  namelen : Nat
  typ : Nat
  deriving DecidableEq, Repr

/-- Reinterpreting a `u32` value as an `i32`, as the `as i32` casts do in
`request.rs` lines 67 and 91. -/
def u32AsI32 (n : Nat) : Int :=
  if n % 2 ^ 32 < 2 ^ 31 then (n % 2 ^ 32 : Int) else (n % 2 ^ 32 : Int) - 2 ^ 32

/-- The signed amount one iteration of the `read_dirent` loop subtracts
from the remaining-length counter (request.rs line 91):
`size_of(FuseDirent) as i32 + dirent.namelen as i32 + pad_len as i32`.
For `namelen < 2^31` this is `24 + namelen + pad`; for larger `namelen`
the cast makes the middle term negative. -/
def direntStep (d : FuseDirent) : Int :=
  (szFuseDirent : Int) + u32AsI32 d.namelen + (u32AsI32 (padLen d.namelen))

/-- The number of buffer bytes one decoded entry accounts for: the fixed
record plus the name plus the zero padding. -/
def direntCost (d : FuseDirent) : Nat := szFuseDirent + d.namelen + padLen d.namelen

/-- Sum of `direntCost` over a decoded entry list. -/
def direntsCost (l : List FuseDirent) : Nat := (l.map direntCost).sum

/-- Embeds the loop of `FuseReaddirOut::read_dirent` (request.rs lines
67-92), made total with an explicit iteration budget: `while len > 0`,
read the next `FuseDirent` from the byte source (modelled as a stream of
records, position `i`), append it to the result, and subtract
`direntStep`; `none` means the budget was exhausted with the loop still
running. The Rust loop has no budget, so the claim that it terminates is
the claim that some budget computable from the inputs always suffices. -/
def readDirentFuel (stream : Nat → FuseDirent) : Nat → Nat → Int → Option (List FuseDirent)
  | 0, _, len => if 0 < len then none else some []
  | fuel + 1, i, len =>
    if 0 < len then
      let d := stream i
      (readDirentFuel stream fuel (i + 1) (len - direntStep d)).map (fun l => d :: l)
    else some []

/-- The initial remaining-length counter of `read_dirent` (request.rs line
67): `out_header.len as i32 - size_of(FuseOutHeader) as i32`. -/
def readDirentStartLen (outHeader : FuseOutHeader) : Int :=
  u32AsI32 outHeader.len - (szFuseOutHeader : Int)

/-- Modelled from the spec: the bitflags type `FilesystemFeatures`
(config.rs) is not under `src/`. The virtio-fs device defines the single
feature bit VIRTIO_FS_F_NOTIFICATION (bit 0); `from_bits_truncate` keeps
exactly the defined bits. -/
def definedFeatureBits : Nat := 1

/-- Modelled from the spec: `FilesystemFeatures::supported_features()`
(config.rs) is not under `src/`; spec §4.5 defines negotiation as
device-offered ∩ driver-supported, so this is the driver-supported mask
(a subset of the defined bits; every property proved below is
insensitive to its exact value). -/
def supportedFeatureBits : Nat := 1

/-- Embeds `FilesystemDevice::negotiate_features` (device.rs lines
1306-1313): `from_bits_truncate(features) & supported_features()`. -/
def negotiate_features (features : Nat) : Nat :=
  (features &&& definedFeatureBits) &&& supportedFeatureBits

/-- Embeds the queue/buffer allocation of `FilesystemDevice::init`
(device.rs lines 1315-1388): one hiprio queue of depth 2 with one staging
buffer, and `num_request_queues` request queues of depth 4, each with its
own staging buffer. -/
structure DeviceLayout where
  hiprioQueueDepth : Nat
  requestQueueCount : Nat
  requestQueueDepth : Nat
  hiprioBufferCount : Nat
  requestBufferCount : Nat
  deriving DecidableEq, Repr

/-- The layout `FilesystemDevice::init` builds for a device configuration
reporting `numRequestQueues` request queues (device.rs lines 1328-1354). -/
def deviceLayout (numRequestQueues : Nat) : DeviceLayout :=
  { hiprioQueueDepth := 2, requestQueueCount := numRequestQueues, requestQueueDepth := 4,
    hiprioBufferCount := 1, requestBufferCount := numRequestQueues }

/-- The exact-split property of spec §4.2 step 6 / §8: the readable slice
covers `[0, len_in)`, the writable slice covers `[len_in, total_len)`
(adjacent, so no overlap and no gap), and the pre-submission synchronize
covers `[0, total_len)`. -/
def SplitsExactly (r : AssembledRequest) : Prop :=
  r.sliceIn.lo = 0 ∧ r.sliceIn.hi = r.lenIn ∧ r.sliceOut.lo = r.lenIn ∧
    r.sliceOut.hi = r.totalLen ∧ r.lenIn ≤ r.totalLen ∧ r.syncLo = 0 ∧
    r.syncHi = r.totalLen

/-! ### Helper lemmas -/

theorem and_seven_eq_mod (L : Nat) : L &&& 7 = L % 8 := by
  have h := Nat.and_pow_two_sub_one_eq_mod L 3
  simpa using h

theorem padLen_eq_mod (L : Nat) : padLen L = (8 - L % 8) % 8 := by
  simp only [padLen]
  rw [show (0x7 : Nat) = 7 from rfl, and_seven_eq_mod, and_seven_eq_mod]

theorem padLen_lt (L : Nat) : padLen L < 8 := by
  rw [padLen_eq_mod]; omega

theorem u32AsI32_of_lt (n : Nat) (h : n < 2 ^ 31) : u32AsI32 n = (n : Int) := by
  unfold u32AsI32
  rw [if_pos (by omega)]
  omega

theorem direntStep_of_small (d : FuseDirent) (h : d.namelen < 2 ^ 31) :
    direntStep d = (direntCost d : Int) := by
  have hp : padLen d.namelen < 2 ^ 31 := lt_trans (padLen_lt _) (by norm_num)
  rw [direntStep, direntCost, u32AsI32_of_lt _ h, u32AsI32_of_lt _ hp]
  push_cast
  ring

theorem direntCost_ge (d : FuseDirent) : 24 ≤ direntCost d := by
  simp only [direntCost, szFuseDirent]
  omega

/-- With every `namelen` below `2^31` (so that the `u32 → i32` casts are
value-preserving), a fuel of at least `len.toNat` iterations always
suffices for the `read_dirent` loop, because each iteration then
subtracts the full entry cost, which is at least 24. -/
theorem readDirentFuel_isSome_of_fuel (stream : Nat → FuseDirent)
    (h : ∀ j, (stream j).namelen < 2 ^ 31) :
    ∀ n i (len : Int), len.toNat ≤ n → (readDirentFuel stream n i len).isSome = true := by
  intro n
  induction n with
  | zero =>
    intro i len hlen
    have hneg : ¬ (0 < len) := by omega
    simp [readDirentFuel, hneg]
  | succ n ih =>
    intro i len hlen
    by_cases hpos : 0 < len
    · have hstep : direntStep (stream i) = (direntCost (stream i) : Int) :=
        direntStep_of_small _ (h i)
      have hcost : 24 ≤ direntCost (stream i) := direntCost_ge _
      have hle : (len - direntStep (stream i)).toNat ≤ n := by
        rw [hstep]; omega
      have hsome := ih (i + 1) (len - direntStep (stream i)) hle
      simpa [readDirentFuel, hpos] using hsome
    · simp [readDirentFuel, hpos]

/-- Supporting fact (not itself a claim): for every operation other than
`batch_forget`, the header `len` equals the `len_in` split offset. This
isolates the `batch_forget` mismatch established separately. -/
theorem headerin_len_eq_lenIn_on_non_batch_ops :
    (initReq.headerin.len = initReq.lenIn) ∧
    (∀ a b, (opendirReq a b).headerin.len = (opendirReq a b).lenIn) ∧
    (∀ a b c d, (readdirReq a b c d).headerin.len = (readdirReq a b c d).lenIn) ∧
    (∀ a b c d, (readReq a b c d).headerin.len = (readReq a b c d).lenIn) ∧
    (∀ a b, (openReq a b).headerin.len = (openReq a b).lenIn) ∧
    (∀ a b c, (flushReq a b c).headerin.len = (flushReq a b c).lenIn) ∧
    (∀ a b c, (releasedirReq a b c).headerin.len = (releasedirReq a b c).lenIn) ∧
    (∀ a b c d, (getattrReq a b c d).headerin.len = (getattrReq a b c d).lenIn) ∧
    (∀ a b c d e f g h i j k l m o,
      (setattrReq a b c d e f g h i j k l m o).headerin.len =
        (setattrReq a b c d e f g h i j k l m o).lenIn) ∧
    (∀ a nm, (lookupReq a nm).headerin.len = (lookupReq a nm).lenIn) ∧
    (∀ a b c d e, (releaseReq a b c d e).headerin.len = (releaseReq a b c d e).lenIn) ∧
    (∀ a b, (accessReq a b).headerin.len = (accessReq a b).lenIn) ∧
    (∀ a, (statfsReq a).headerin.len = (statfsReq a).lenIn) ∧
    (∀ a b, (interruptReq a b).headerin.len = (interruptReq a b).lenIn) ∧
    (∀ a b c nm, (mkdirReq a b c nm).headerin.len = (mkdirReq a b c nm).lenIn) ∧
    (∀ a nm b c d, (createReq a nm b c d).headerin.len = (createReq a nm b c d).lenIn) ∧
    (∀ a, (destroyReq a).headerin.len = (destroyReq a).lenIn) ∧
    (∀ a nm b nn, (renameReq a nm b nn).headerin.len = (renameReq a nm b nn).lenIn) ∧
    (∀ a nm b nn c, (rename2Req a nm b nn c).headerin.len = (rename2Req a nm b nn c).lenIn) ∧
    (∀ a b c dt, (writeReq a b c dt).req.headerin.len = (writeReq a b c dt).req.lenIn) ∧
    (∀ a b, (forgetReq a b).headerin.len = (forgetReq a b).lenIn) ∧
    (∀ a b nm, (linkReq a b nm).headerin.len = (linkReq a b nm).lenIn) ∧
    (∀ a nm, (unlinkReq a nm).headerin.len = (unlinkReq a nm).lenIn) := by
  refine ⟨rfl, fun _ _ => rfl, fun _ _ _ _ => rfl, fun _ _ _ _ => rfl, fun _ _ => rfl,
    fun _ _ _ => rfl, fun _ _ _ => rfl, fun _ _ _ _ => rfl,
    fun _ _ _ _ _ _ _ _ _ _ _ _ _ _ => rfl, ?_, fun _ _ _ _ _ => rfl, fun _ _ => rfl,
    fun _ => rfl, fun _ _ => rfl, ?_, ?_, fun _ => rfl, ?_, ?_, ?_, fun _ _ => rfl, ?_, ?_⟩
  · intro a nm
    simp only [lookupReq, szFuseInHeader]
    omega
  · intro a b c nm
    simp only [mkdirReq, szFuseInHeader, szFuseMkdirIn]
    omega
  · intro a nm b c d
    simp only [createReq, szFuseInHeader, szFuseCreateIn]
    omega
  · intro a nm b nn
    simp only [renameReq, szFuseInHeader, szFuseRenameIn]
    omega
  · intro a nm b nn c
    simp only [rename2Req, szFuseInHeader, szFuseRename2In]
    omega
  · intro a b c dt
    simp only [writeReq, szFuseInHeader, szFuseWriteIn]
  · intro a b nm
    simp only [linkReq, szFuseInHeader, szFuseLinkIn]
    omega
  · intro a nm
    simp only [unlinkReq, szFuseInHeader, szFuseUnlinkIn]
    omega

/-! ### Claim theorems -/

/-- Claim C1 (code bug, evaluation at the failing input): for
`batch_forget([(10,1),(11,2)])` the header `len` field is
`size_of(FuseBatchForgetIn) + size_of(FuseInHeader) = 48`, but the
device-readable extent `len_in` — the bytes actually written, namely the
header and the two 16-byte `FuseForgetOne` records — is `72`, so the
invariant "`len` equals the exact byte count of the device-readable part"
fails on `batch_forget`. -/
theorem c1_batch_forget_len_mismatch :
    (batchForgetReq [(10, 1), (11, 2)]).headerin.len = 48 ∧
    (batchForgetReq [(10, 1), (11, 2)]).lenIn = 72 ∧
    (batchForgetReq [(10, 1), (11, 2)]).headerin.len ≠
      (batchForgetReq [(10, 1), (11, 2)]).lenIn := by
  decide

/-- Claim C2 (code bug, evaluation at the failing input): for a 15-byte
payload, `write` pads the payload to 16 bytes but records 16 — the padded
length, not the original 15 — in the `size` field of `FuseWriteIn`,
because the code computes `size` from the shadowed, already-padded
`data`. -/
theorem c2_write_size_records_padded_length :
    (writeReq 2 0 0 (List.replicate 15 72)).payload.length = 16 ∧
    (writeReq 2 0 0 (List.replicate 15 72)).writein.size = 16 ∧
    (writeReq 2 0 0 (List.replicate 15 72)).writein.size ≠ 15 := by
  decide

/-- Claim C3 (code bug, evaluation at the failing input): `forget`,
`interrupt` and `batch_forget` enqueue on the priority queue, yet they
stage their request bytes in general request queue 0's staging buffer and
build both DMA slices on that buffer — not on the priority queue's
dedicated buffer (which `init` allocates but no operation ever uses). -/
theorem c3_hiprio_ops_stage_in_request_buffer :
    (forgetReq 1 1).queue = QueueSel.hiprio ∧
    (forgetReq 1 1).stagingBuffer = QueueSel.request 0 ∧
    (forgetReq 1 1).sliceIn.buf = QueueSel.request 0 ∧
    (forgetReq 1 1).sliceOut.buf = QueueSel.request 0 ∧
    (interruptReq 1 7).queue = QueueSel.hiprio ∧
    (interruptReq 1 7).stagingBuffer = QueueSel.request 0 ∧
    (batchForgetReq [(10, 1)]).queue = QueueSel.hiprio ∧
    (batchForgetReq [(10, 1)]).stagingBuffer = QueueSel.request 0 ∧
    QueueSel.hiprio ≠ QueueSel.request 0 ∧
    (deviceLayout 1).hiprioBufferCount = 1 := by
  decide

/-- Claim C4 (code bug, evaluation at the failing input): for a response
with `out_header.len = 41` (declared payload extent `41 - 16 = 25`) and a
stream of zero-`namelen` entries, `read_dirent` decodes two entries whose
summed sizes are `48 ≠ 25` — the running remainder goes negative and the
buffer is decoded anyway, not rejected as malformed (the decoder has no
error path at all). -/
theorem c4_readdir_overrun_decoded_not_rejected :
    readDirentStartLen ⟨41, 0, 0⟩ = 25 ∧
    readDirentFuel (fun _ => ⟨0, 0, 0, 0⟩) 25 0 25 =
      some [⟨0, 0, 0, 0⟩, ⟨0, 0, 0, 0⟩] ∧
    direntsCost [⟨0, 0, 0, 0⟩, ⟨0, 0, 0, 0⟩] = 48 ∧
    direntsCost [⟨0, 0, 0, 0⟩, ⟨0, 0, 0, 0⟩] ≠ 25 := by
  decide

/-- Claim C5: every submission is routed by opcode — `interrupt`, `forget`
and `batch_forget` enqueue their chain on the priority (hiprio) queue,
and every other operation enqueues on general request queue 0. -/
theorem c5_queue_routing_by_opcode :
    (∀ a b, (interruptReq a b).queue = QueueSel.hiprio) ∧
    (∀ a b, (forgetReq a b).queue = QueueSel.hiprio) ∧
    (∀ l, (batchForgetReq l).queue = QueueSel.hiprio) ∧
    (initReq.queue = QueueSel.request 0) ∧
    (∀ a b, (opendirReq a b).queue = QueueSel.request 0) ∧
    (∀ a b c d, (readdirReq a b c d).queue = QueueSel.request 0) ∧
    (∀ a b c d, (readReq a b c d).queue = QueueSel.request 0) ∧
    (∀ a b, (openReq a b).queue = QueueSel.request 0) ∧
    (∀ a b c, (flushReq a b c).queue = QueueSel.request 0) ∧
    (∀ a b c, (releasedirReq a b c).queue = QueueSel.request 0) ∧
    (∀ a b c d, (getattrReq a b c d).queue = QueueSel.request 0) ∧
    (∀ a b c d e f g h i j k l m o,
      (setattrReq a b c d e f g h i j k l m o).queue = QueueSel.request 0) ∧
    (∀ a nm, (lookupReq a nm).queue = QueueSel.request 0) ∧
    (∀ a b c d e, (releaseReq a b c d e).queue = QueueSel.request 0) ∧
    (∀ a b, (accessReq a b).queue = QueueSel.request 0) ∧
    (∀ a, (statfsReq a).queue = QueueSel.request 0) ∧
    (∀ a b c nm, (mkdirReq a b c nm).queue = QueueSel.request 0) ∧
    (∀ a nm b c d, (createReq a nm b c d).queue = QueueSel.request 0) ∧
    (∀ a, (destroyReq a).queue = QueueSel.request 0) ∧
    (∀ a nm b nn, (renameReq a nm b nn).queue = QueueSel.request 0) ∧
    (∀ a nm b nn c, (rename2Req a nm b nn c).queue = QueueSel.request 0) ∧
    (∀ a b c dt, (writeReq a b c dt).req.queue = QueueSel.request 0) ∧
    (∀ a b nm, (linkReq a b nm).queue = QueueSel.request 0) ∧
    (∀ a nm, (unlinkReq a nm).queue = QueueSel.request 0) :=
  ⟨fun _ _ => rfl, fun _ _ => rfl, fun _ => rfl, rfl, fun _ _ => rfl,
    fun _ _ _ _ => rfl, fun _ _ _ _ => rfl, fun _ _ => rfl, fun _ _ _ => rfl,
    fun _ _ _ => rfl, fun _ _ _ _ => rfl, fun _ _ _ _ _ _ _ _ _ _ _ _ _ _ => rfl,
    fun _ _ => rfl, fun _ _ _ _ _ => rfl, fun _ _ => rfl, fun _ => rfl,
    fun _ _ _ _ => rfl, fun _ _ _ _ _ => rfl, fun _ => rfl, fun _ _ _ _ => rfl,
    fun _ _ _ _ _ => rfl, fun _ _ _ _ => rfl, fun _ _ _ => rfl, fun _ _ => rfl⟩

/-- Claim C6 (code bug, evaluation at the failing input): `rename2`
returns from submission right after enqueuing its descriptor chain,
without the `should_notify`/`notify` step that every other operation
performs (shown here for `rename` and `open`). -/
theorem c6_rename2_missing_notify_check :
    (rename2Req 1 [97] 2 [98] 0).checksNotify = false ∧
    (renameReq 1 [97] 2 [98]).checksNotify = true ∧
    (openReq 1 0).checksNotify = true := by
  decide

/-- Claim C7: for every operation the staging buffer is split into a
device-readable slice covering exactly `[0, len_in)` and a
device-writable slice covering exactly `[len_in, total_len)` — adjacent,
so no overlap and no gap — and the synchronize before submission covers
exactly the written extent `[0, total_len)`. -/
theorem c7_descriptor_split_exact :
    SplitsExactly initReq ∧
    (∀ a b, SplitsExactly (opendirReq a b)) ∧
    (∀ a b c d, SplitsExactly (readdirReq a b c d)) ∧
    (∀ a b c d, SplitsExactly (readReq a b c d)) ∧
    (∀ a b, SplitsExactly (openReq a b)) ∧
    (∀ a b c, SplitsExactly (flushReq a b c)) ∧
    (∀ a b c, SplitsExactly (releasedirReq a b c)) ∧
    (∀ a b c d, SplitsExactly (getattrReq a b c d)) ∧
    (∀ a b c d e f g h i j k l m o,
      SplitsExactly (setattrReq a b c d e f g h i j k l m o)) ∧
    (∀ a nm, SplitsExactly (lookupReq a nm)) ∧
    (∀ a b c d e, SplitsExactly (releaseReq a b c d e)) ∧
    (∀ a b, SplitsExactly (accessReq a b)) ∧
    (∀ a, SplitsExactly (statfsReq a)) ∧
    (∀ a b, SplitsExactly (interruptReq a b)) ∧
    (∀ a b c nm, SplitsExactly (mkdirReq a b c nm)) ∧
    (∀ a nm b c d, SplitsExactly (createReq a nm b c d)) ∧
    (∀ a, SplitsExactly (destroyReq a)) ∧
    (∀ a nm b nn, SplitsExactly (renameReq a nm b nn)) ∧
    (∀ a nm b nn c, SplitsExactly (rename2Req a nm b nn c)) ∧
    (∀ a b c dt, SplitsExactly (writeReq a b c dt).req) ∧
    (∀ a b, SplitsExactly (forgetReq a b)) ∧
    (∀ l, SplitsExactly (batchForgetReq l)) ∧
    (∀ a b nm, SplitsExactly (linkReq a b nm)) ∧
    (∀ a nm, SplitsExactly (unlinkReq a nm)) := by
  refine ⟨?_, ?_, ?_, ?_, ?_, ?_, ?_, ?_, ?_, ?_, ?_, ?_, ?_, ?_, ?_, ?_, ?_, ?_, ?_,
    ?_, ?_, ?_, ?_, ?_⟩
  all_goals intros
  all_goals refine ⟨rfl, rfl, rfl, rfl, ?_, rfl, rfl⟩
  · simp only [initReq, szFuseInitIn, szFuseInHeader, szFuseOutHeader]; omega
  · simp only [opendirReq, szFuseOpenIn, szFuseInHeader, szFuseOutHeader, szFuseOpenOut]
    omega
  · simp only [readdirReq, szFuseReadIn, szFuseInHeader, szFuseOutHeader]; omega
  · simp only [readReq, szFuseReadIn, szFuseInHeader, szFuseOutHeader]; omega
  · simp only [openReq, szFuseOpenIn, szFuseInHeader, szFuseOutHeader, szFuseOpenOut]
    omega
  · simp only [flushReq, szFuseFlushIn, szFuseInHeader, szFuseOutHeader]; omega
  · simp only [releasedirReq, szFuseReleaseIn, szFuseInHeader, szFuseOutHeader]; omega
  · simp only [getattrReq, szFuseGetattrIn, szFuseInHeader, szFuseOutHeader, szFuseAttrOut]
    omega
  · simp only [setattrReq, szFuseSetattrIn, szFuseInHeader, szFuseOutHeader, szFuseAttrOut]
    omega
  · simp only [lookupReq, szFuseInHeader, szFuseOutHeader, szFuseEntryOut]; omega
  · simp only [releaseReq, szFuseReleaseIn, szFuseInHeader, szFuseOutHeader]; omega
  · simp only [accessReq, szFuseAccessIn, szFuseInHeader, szFuseOutHeader, szFuseAttrOut]
    omega
  · simp only [statfsReq, szFuseInHeader, szFuseOutHeader, szFuseStatfsOut]; omega
  · simp only [interruptReq, szFuseInterruptIn, szFuseInHeader, szFuseOutHeader]; omega
  · simp only [mkdirReq, szFuseMkdirIn, szFuseInHeader, szFuseOutHeader, szFuseEntryOut]
    omega
  · simp only [createReq, szFuseCreateIn, szFuseInHeader, szFuseOutHeader, szFuseEntryOut]
    omega
  · simp only [destroyReq, szFuseInHeader, szFuseOutHeader]; omega
  · simp only [renameReq, szFuseRenameIn, szFuseInHeader, szFuseOutHeader, szFuseEntryOut]
    omega
  · simp only [rename2Req, szFuseRename2In, szFuseInHeader, szFuseOutHeader, szFuseEntryOut]
    omega
  · simp only [writeReq, szFuseWriteIn, szFuseInHeader, szFuseOutHeader, szFuseWriteOut]
    omega
  · simp only [forgetReq, szFuseForgetIn, szFuseInHeader, szFuseOutHeader]; omega
  · simp only [batchForgetReq, szFuseForgetOne, szFuseInHeader, szFuseOutHeader]; omega
  · simp only [linkReq, szFuseLinkIn, szFuseInHeader, szFuseOutHeader, szFuseEntryOut]
    omega
  · simp only [unlinkReq, szFuseUnlinkIn, szFuseInHeader, szFuseOutHeader, szFuseEntryOut]
    omega

/-- Claim C8: the padding computed for any length `L` by the code's
bitwise form `(8 - (L & 0x7)) & 0x7` equals `(8 - (L mod 8)) mod 8`, the
padded length `L + pad(L)` is always a multiple of 8, and a name padded
by `fuse_pad_str` (terminator included or not) has total length a
multiple of 8. -/
theorem c8_padding_rule (L : Nat) (name : List Nat) (t : Bool) :
    padLen L = (8 - L % 8) % 8 ∧ (L + padLen L) % 8 = 0 ∧
    (fusePadStr name t).length % 8 = 0 := by
  refine ⟨padLen_eq_mod L, ?_, ?_⟩
  · rw [padLen_eq_mod]; omega
  · simp only [fusePadStr, List.length_append, List.length_replicate]
    omega

/-- Claim C9: `negotiate_features(offered)` is exactly the intersection of
the offered bits with the driver-supported feature set — a bit is set in
the result iff it is set in the offered word and in the supported set —
and the negotiation is idempotent. -/
theorem c9_negotiate_features_intersection :
    (∀ f i, (negotiate_features f).testBit i =
      (f.testBit i && supportedFeatureBits.testBit i)) ∧
    (∀ f, negotiate_features (negotiate_features f) = negotiate_features f) := by
  constructor
  · intro f i
    simp only [negotiate_features, Nat.testBit_and]
    cases hf : f.testBit i <;> cases hs : Nat.testBit supportedFeatureBits i <;>
      simp_all [definedFeatureBits, supportedFeatureBits]
  · intro f
    apply Nat.eq_of_testBit_eq
    intro i
    simp only [negotiate_features, Nat.testBit_and]
    cases hf : f.testBit i <;> cases hd : Nat.testBit definedFeatureBits i <;>
      cases hs : Nat.testBit supportedFeatureBits i <;> rfl

/-- Claim C10, counterexample: a directory entry with
`namelen = 2^32 - 24` makes one loop iteration of `read_dirent` subtract
exactly 0 (the `u32 → i32` cast turns `namelen` into `-24`), not at least
`size_of(FuseDirent) = 24` as the claim states; on a stream of such
entries the loop makes no progress — here it is still running after 64
iterations with the counter unchanged. -/
theorem c10_step_not_decreasing_counterexample :
    direntStep ⟨0, 0, 4294967272, 0⟩ = 0 ∧
    readDirentFuel (fun _ => ⟨0, 0, 4294967272, 0⟩) 64 0 25 = none := by
  decide

/-- Claim C10 as amended: whenever every `namelen` in the entry stream is
below `2^31` (so the `u32 → i32` casts preserve the values), each
iteration of the `read_dirent` loop decreases the remaining-length
counter by at least `size_of(FuseDirent) = 24`, hence the loop terminates
within `len.toNat` iterations for every input buffer and out-header. -/
theorem c10_read_dirent_terminates_bounded (stream : Nat → FuseDirent) (i : Nat)
    (len : Int) (h : ∀ j, (stream j).namelen < 2 ^ 31) :
    (readDirentFuel stream len.toNat i len).isSome = true :=
  readDirentFuel_isSome_of_fuel stream h len.toNat i len (le_refl _)

/-- Witness for C10's amended theorem at a concrete input: the all-zero
entry stream with counter 25 decodes within 25 iterations. -/
theorem c10_read_dirent_terminates_bounded_witness :
    (readDirentFuel (fun _ => ⟨0, 0, 0, 0⟩) ((25 : Int).toNat) 0 25).isSome = true :=
  c10_read_dirent_terminates_bounded (fun _ => ⟨0, 0, 0, 0⟩) 0 25
    (fun _ => by show (0 : Nat) < 2 ^ 31; decide)

end VirtioFs
